import Mathlib

/-!
Verification of the MILP constraint-encoding utilities of the CLAASP
repository (`claasp/cipher_modules/models/milp/utils/utils.py` and
`claasp/utils/integer.py`).

The Python functions build linear constraints over binary and bounded
integer decision variables.  We shallowly embed each function: a
constraint `lhs <= rhs` is represented by the pair `(lhs, rhs)` of the
two sides evaluated at a given assignment of the decision variables
(integers for the exact encoders, rationals where the source uses
float coefficients).  Binary variables are embedded as `Bool` injected
into `ℤ` by `b2i`.
-/

/-- Injection of a boolean decision-variable value into `ℤ`. -/
def b2i (b : Bool) : ℤ := if b then 1 else 0

/-- A list of constraints, each `(lhs, rhs)` read as `lhs ≤ rhs`, all hold. -/
def all_le (l : List (ℤ × ℤ)) : Prop := ∀ c ∈ l, c.1 ≤ c.2

instance (l : List (ℤ × ℤ)) : Decidable (all_le l) :=
  List.decidableBAll _ l

/-- A list of constraint left-hand sides, each read as `1 ≤ s`, all hold. -/
def all_ge_one (l : List ℤ) : Prop := ∀ s ∈ l, 1 ≤ s

instance (l : List ℤ) : Decidable (all_ge_one l) :=
  List.decidableBAll _ l

/-! ## `milp_less` (utils.py lines 83-109)

`milp_less(model, a, b, bigM)` creates the binary indicator
`a_less_b` and returns it with the two constraints
`a <= b - 1 + bigM*(1 - a_less_b)` and `a >= b - bigM*a_less_b`.
We embed the returned constraint pair as two `(lhs, rhs)`
inequalities (`lhs ≤ rhs`), with `r` the value of the indicator. -/
def milp_less (a b bigM r : ℤ) : List (ℤ × ℤ) :=
  [(a, b - 1 + bigM * (1 - r)), (b - bigM * r, a)]

/-- **C1.** For integers `a`, `b` in a bounded range `[lo, hi]` and any
`M` greater than the maximum possible `|a - b|` (that is, `hi - lo < M`),
a 0/1 value `r` of the indicator satisfies both constraints returned by
`milp_less` exactly when `r = 1 ↔ a < b`: in every feasible 0/1
assignment the indicator is forced to `1` iff `a < b` and to `0` iff
`a ≥ b`. -/
theorem milp_less_forces_indicator (lo hi a b M r : ℤ)
    (ha₁ : lo ≤ a) (ha₂ : a ≤ hi) (hb₁ : lo ≤ b) (hb₂ : b ≤ hi)
    (hM : hi - lo < M) (hr : r = 0 ∨ r = 1) :
    all_le (milp_less a b M r) ↔ (r = 1 ↔ a < b) := by
  have hsimp : all_le (milp_less a b M r) ↔
      (a ≤ b - 1 + M * (1 - r) ∧ b - M * r ≤ a) := by
    constructor
    · intro h
      exact ⟨h (a, b - 1 + M * (1 - r)) (by simp [milp_less]),
             h (b - M * r, a) (by simp [milp_less])⟩
    · rintro ⟨h1, h2⟩ c hc
      simp only [milp_less, List.mem_cons, List.not_mem_nil, or_false] at hc
      rcases hc with h | h <;> subst h
      · exact h1
      · exact h2
  rw [hsimp]
  rcases hr with h | h <;> subst h
  · have e1 : M * (1 - 0) = M := by ring
    have e2 : M * 0 = 0 := by ring
    rw [e1, e2]
    constructor
    · rintro ⟨h1, h2⟩
      constructor
      · intro h01; exact absurd h01 (by decide)
      · intro hab; omega
    · intro hiff
      have hnab : ¬ a < b := fun hab => absurd (hiff.mpr hab) (by decide)
      constructor <;> omega
  · have e1 : M * (1 - 1) = 0 := by ring
    have e2 : M * 1 = M := by ring
    rw [e1, e2]
    constructor
    · rintro ⟨h1, h2⟩
      exact ⟨fun _ => by omega, fun _ => rfl⟩
    · intro hiff
      have hab : a < b := hiff.mp rfl
      constructor <;> omega

/-- Witness for `milp_less_forces_indicator` at `lo = 0`, `hi = 2`,
`a = 1`, `b = 2`, `M = 3`, `r = 1`. -/
theorem milp_less_forces_indicator_witness :
    all_le (milp_less 1 2 3 1) ↔ ((1 : ℤ) = 1 ↔ (1 : ℤ) < 2) :=
  milp_less_forces_indicator 0 2 1 2 3 1 (by decide) (by decide)
    (by decide) (by decide) (by decide) (Or.inr rfl)

/-! ## `milp_xor` (utils.py lines 269-292)

`milp_xor(a, b, c)` returns the four constraints
`a + b >= c`, `a + c >= b`, `b + c >= a`, `a + b + c <= 2`.
Each `lhs >= rhs` is recorded as the pair `(rhs, lhs)`. -/
def milp_xor (a b c : ℤ) : List (ℤ × ℤ) :=
  [(c, a + b), (b, a + c), (a, b + c), (a + b + c, 2)]

/-- **C2.** Over boolean values of `a`, `b`, `c`, the four constraints of
`milp_xor` all hold exactly when `c = a XOR b`; exactly 4 of the 8
boolean triples satisfy them and the other 4 violate at least one. -/
theorem milp_xor_exact :
    (∀ a b c : Bool,
      all_le (milp_xor (b2i a) (b2i b) (b2i c)) ↔ c = xor a b) ∧
    (Finset.univ.filter
      (fun t : Bool × Bool × Bool =>
        all_le (milp_xor (b2i t.1) (b2i t.2.1) (b2i t.2.2)))).card = 4 ∧
    (Finset.univ.filter
      (fun t : Bool × Bool × Bool =>
        ¬ all_le (milp_xor (b2i t.1) (b2i t.2.1) (b2i t.2.2)))).card = 4 := by
  refine ⟨?_, ?_, ?_⟩ <;> decide

/-! ## `milp_generalized_and` (utils.py lines 171-203)

The auxiliary indicator's pool name is built by concatenating, for each
`i`, `str(var_list[i])` followed by `"_and_"` when `i < len - 1` and by
`"_dummy"` for the last operand. -/
def milp_generalized_and_varname : List String → String
  | [] => ""
  | [v] => v ++ "_dummy"
  | v :: rest => v ++ "_and_" ++ milp_generalized_and_varname rest

/-- **C8, counterexample.** The claim that the same set of distinct
operands presented in a different order always produces a distinct
auxiliary-variable name is false: the distinct operands `"a"` and
`"a_and_a"` give the same name in either order. -/
theorem milp_generalized_and_varname_order_cex :
    milp_generalized_and_varname ["a", "a_and_a"] =
      milp_generalized_and_varname ["a_and_a", "a"] ∧
    ("a" : String) ≠ "a_and_a" := by
  constructor
  · rfl
  · decide

/-- **C8, amended.** The auxiliary name is a deterministic function of
the ordered operand list, so equal ordered lists reuse the same pooled
indicator; for typical pool names a different order of distinct
operands gives a distinct name (e.g. `"x_0"`, `"x_1"`), but this is not
guaranteed: operand names that embed the separator can collide (e.g.
`"a"` and `"a_and_a"`). -/
theorem milp_generalized_and_varname_amended :
    (∀ l₁ l₂ : List String, l₁ = l₂ →
      milp_generalized_and_varname l₁ = milp_generalized_and_varname l₂) ∧
    milp_generalized_and_varname ["x_0", "x_1"] ≠
      milp_generalized_and_varname ["x_1", "x_0"] ∧
    milp_generalized_and_varname ["a", "a_and_a"] =
      milp_generalized_and_varname ["a_and_a", "a"] := by
  refine ⟨fun l₁ l₂ h => by rw [h], ?_, rfl⟩
  decide

/-- Witness for `milp_generalized_and_varname_amended` (first conjunct
has a hypothesis): applied at the concrete list `["x_0"]`. -/
theorem milp_generalized_and_varname_amended_witness :
    milp_generalized_and_varname ["x_0"] =
      milp_generalized_and_varname ["x_0"] :=
  milp_generalized_and_varname_amended.1 ["x_0"] ["x_0"] rfl

/-! ## `generate_bitmask` (integer.py lines 5-21)

The source computes `((1 << (n - 1)) - 1) | (1 << (n - 1)) & 0xFFFFFFFF`.
By Python operator precedence `&` binds tighter than `|`, so the 32-bit
mask applies only to the second term; we embed that grouping exactly. -/
def generate_bitmask (n : ℕ) : ℕ :=
  ((1 <<< (n - 1)) - 1) ||| ((1 <<< (n - 1)) &&& 0xFFFFFFFF)

/-- **C9.** For every `1 ≤ n ≤ 32`, `generate_bitmask n` equals the
`n`-bit all-ones integer `(1 <<< n) - 1`, despite the mask applying only
to the second term of the disjunction. -/
theorem generate_bitmask_eq (n : ℕ) (h₁ : 1 ≤ n) (h₂ : n ≤ 32) :
    generate_bitmask n = (1 <<< n) - 1 := by
  interval_cases n <;> rfl

/-- Witness for `generate_bitmask_eq` at `n = 4`. -/
theorem generate_bitmask_eq_witness :
    generate_bitmask 4 = (1 <<< 4) - 1 :=
  generate_bitmask_eq 4 (by decide) (by decide)

/-! ## Espresso-style inequalities (utils.py lines 442-483 and 485-581)

Both truncated-XOR encoders walk a fixed list of ternary patterns; for
each pattern they accumulate, over `enumerate(ineq)` zipped with the
concatenated variable vector, the contribution `1 - var` for a `'1'`,
`var` for a `'0'`, and nothing for a don't-care, and emit the
constraint `sum >= 1`.  `espresso_sum` is that accumulation. -/
def espresso_sum : List Char → List ℤ → ℤ
  | c :: cs, v :: vs =>
      if c = '1' then (1 - v) + espresso_sum cs vs
      else if c = '0' then v + espresso_sum cs vs
      else espresso_sum cs vs
  | _, _ => 0

/-- The 10 ternary patterns of `milp_xor_truncated` (utils.py 468-469). -/
def bitwise_pats : List String :=
  ["-1-000", "-0-100", "----11", "0-0-1-", "-0-0-1",
   "-1-1-1", "11----", "--1-0-", "1---0-", "--11--"]

/-- `milp_xor_truncated(model, input_1, input_2, output)`: one constraint
`sum >= 1` per pattern, over `all_vars = input_1 + input_2 + output`.
We return the list of left-hand sums. -/
def milp_xor_truncated (input_1 input_2 output : List ℤ) : List ℤ :=
  bitwise_pats.map (fun p => espresso_sum p.data (input_1 ++ input_2 ++ output))

/-- The 9-row truncated-XOR transition table from the docstring of
`milp_xor_truncated` (utils.py 450-462). -/
def truncated_table : List (ℕ × ℕ × ℕ) :=
  [(0, 0, 0), (0, 1, 1), (0, 2, 2),
   (1, 0, 1), (1, 1, 0), (1, 2, 2),
   (2, 0, 2), (2, 1, 2), (2, 2, 2)]

/-- Decode a binary pair `(v0, v1)`, `v0` the MSB, to its value. -/
def pairVal (v0 v1 : Bool) : ℕ := 2 * (if v0 then 1 else 0) + (if v1 then 1 else 0)

/-- **C3.** `milp_xor_truncated` emits exactly 10 inequalities, each
from a 6-character ternary pattern, and for every binary assignment of
the concatenated 6-variable vector (two bits per value) all 10
constraints hold iff the decoded triple is a row of the 9-row
transition table; every assignment decoding to a triple not in the
table violates at least one constraint. -/
theorem milp_xor_truncated_table :
    bitwise_pats.length = 10 ∧
    (∀ p ∈ bitwise_pats, p.length = 6) ∧
    (∀ a0 a1 b0 b1 c0 c1 : Bool,
      all_ge_one (milp_xor_truncated [b2i a0, b2i a1] [b2i b0, b2i b1]
          [b2i c0, b2i c1]) ↔
        (pairVal a0 a1, pairVal b0 b1, pairVal c0 c1) ∈ truncated_table) := by
  refine ⟨rfl, by decide, by decide⟩

/-! ## `milp_generalized_xor` (utils.py lines 295-340)

The n-ary XOR encoder asks the XOR inequality dictionary (the module
`generate_inequalities_for_xor_with_n_input_bits`, which is not part of
the sources given) for the cover of arity `n = len(input_var_list)`,
then for each pattern accumulates the input contributions
(`'1'` -> `1 - var`, `'0'` -> `var`, don't-care -> nothing), looks at
`ineq[n]` for the output contribution, and appends `constraint >= 1` —
note the `continue` in the source skips the whole pattern when the
output position holds a don't-care. -/
def gen_xor_one (input_vars : List ℤ) (output_bit : ℤ) (ineq : List Char) :
    Option ℤ :=
  match ineq.get? input_vars.length with
  | some c =>
    if c = '1' then some (espresso_sum ineq input_vars + (1 - output_bit))
    else if c = '0' then some (espresso_sum ineq input_vars + output_bit)
    else none
  | none => none

/-- `milp_generalized_xor(input_var_list, output_bit)`: the list of
emitted constraint left-hand sums (each read as `lhs ≥ 1`), one per
cover pattern that is not skipped. -/
def milp_generalized_xor (ineqs : List (List Char)) (input_vars : List ℤ)
    (output_bit : ℤ) : List ℤ :=
  ineqs.filterMap (gen_xor_one input_vars output_bit)

/-- All 0/1 strings of length `m` (as lists of chars). -/
def bitstrings : ℕ → List (List Char)
  | 0 => [[]]
  | m + 1 => (bitstrings m).map (fun s => '0' :: s) ++
             (bitstrings m).map (fun s => '1' :: s)

/-- Modelled from the spec: the Inequality Cover Cache entry for arity
`n` — the minimal set of length-`(n+1)` ternary patterns whose joint
satisfaction region is exactly the XOR truth table.  For XOR no prime
implicant of the complement has a don't-care (flipping any bit flips
the parity), so the minimal cover is exactly the set of 0/1 strings of
length `n+1` with odd parity, each excluding one infeasible point.
The generating module `generate_inequalities_for_xor_with_n_input_bits`
is not among the given sources. -/
def xor_inequalities (n : ℕ) : List (List Char) :=
  (bitstrings (n + 1)).filter (fun p => p.count '1' % 2 = 1)

/-- The spec's wording of a cover constraint (§3): over the whole
variable vector, `pattern[i] == '1'` contributes `1 - var_i`, `'0'`
contributes `var_i`, a don't-care contributes nothing, and the
inequality is `sum ≥ 1`.  This is compared against the source-derived
`milp_generalized_xor`. -/
def cover_constraint_lhs (p : List Char) (vars : List ℤ) : ℤ :=
  ((p.zip vars).map (fun pc =>
    if pc.1 = '1' then 1 - pc.2 else if pc.1 = '0' then pc.2 else 0)).sum

/-- The output-position contribution of a pattern. -/
def out_contrib (oc : Option Char) (output_bit : ℤ) : ℤ :=
  match oc with
  | some c => if c = '1' then 1 - output_bit else if c = '0' then output_bit
              else 0
  | none => 0

theorem cover_split : ∀ (vars : List ℤ) (p : List Char) (out : ℤ),
    p.length = vars.length + 1 →
    cover_constraint_lhs p (vars ++ [out]) =
      espresso_sum p vars + out_contrib (p.get? vars.length) out := by
  intro vars
  induction vars with
  | nil =>
    intro p out hlen
    match p, hlen with
    | [c], _ =>
      simp [cover_constraint_lhs, espresso_sum, out_contrib]
  | cons v vs ih =>
    intro p out hlen
    match p, hlen with
    | c :: p', hlen =>
      have hlen' : p'.length = vs.length + 1 := by
        simpa using hlen
      have ihp := ih p' out hlen'
      simp only [cover_constraint_lhs, List.cons_append, List.zip_cons_cons,
        List.map_cons, List.sum_cons] at ihp ⊢
      rw [ihp]
      show _ = espresso_sum (c :: p') (v :: vs) + _
      by_cases h1 : c = '1'
      · subst h1; simp [espresso_sum]; ring
      · by_cases h0 : c = '0'
        · subst h0; simp [espresso_sum, h1]; ring
        · simp [espresso_sum, h1, h0]

theorem bitstrings_spec : ∀ (m : ℕ) (p : List Char), p ∈ bitstrings m →
    p.length = m ∧ ∀ c ∈ p, c = '0' ∨ c = '1' := by
  intro m
  induction m with
  | zero => intro p hp; simp [bitstrings] at hp; simp [hp]
  | succ m ih =>
    intro p hp
    simp only [bitstrings, List.mem_append, List.mem_map] at hp
    rcases hp with ⟨s, hs, rfl⟩ | ⟨s, hs, rfl⟩ <;>
      obtain ⟨h1, h2⟩ := ih s hs <;>
      refine ⟨by simp [h1], ?_⟩ <;>
      intro c hc <;> simp only [List.mem_cons] at hc <;>
      rcases hc with rfl | hc
    · exact Or.inl rfl
    · exact h2 c hc
    · exact Or.inr rfl
    · exact h2 c hc

theorem filterMap_congr_map {α β : Type} (l : List α) (f : α → Option β)
    (g : α → β) (h : ∀ a ∈ l, f a = some (g a)) : l.filterMap f = l.map g := by
  induction l with
  | nil => rfl
  | cons a l ih =>
    rw [List.filterMap_cons, h a (by simp), List.map_cons,
      ih (fun a ha => h a (by simp [ha]))]

/-- **C5.** With the (spec-modelled) inequality cover for arity
`n = input_vars.length`, `milp_generalized_xor` emits exactly one
constraint per cover pattern — the spec's `sum(contributions) ≥ 1`
with `'1' ↦ 1 - var`, `'0' ↦ var`, don't-care contributing nothing —
so the number of emitted constraints equals the number of patterns in
the cover. -/
theorem milp_generalized_xor_cover (input_vars : List ℤ) (output_bit : ℤ) :
    milp_generalized_xor (xor_inequalities input_vars.length) input_vars
        output_bit =
      (xor_inequalities input_vars.length).map
        (fun p => cover_constraint_lhs p (input_vars ++ [output_bit])) ∧
    (milp_generalized_xor (xor_inequalities input_vars.length) input_vars
        output_bit).length =
      (xor_inequalities input_vars.length).length := by
  have hmain : milp_generalized_xor (xor_inequalities input_vars.length)
      input_vars output_bit =
      (xor_inequalities input_vars.length).map
        (fun p => cover_constraint_lhs p (input_vars ++ [output_bit])) := by
    apply filterMap_congr_map
    intro p hp
    have hmem : p ∈ bitstrings (input_vars.length + 1) :=
      List.mem_of_mem_filter hp
    obtain ⟨hlen, hbin⟩ := bitstrings_spec _ p hmem
    have hlt : input_vars.length < p.length := by omega
    have hget : p.get? input_vars.length =
        some (p.get ⟨input_vars.length, hlt⟩) :=
      List.get?_eq_get hlt
    have hcbin := hbin _ (List.get_mem p input_vars.length hlt)
    rw [cover_split input_vars p output_bit hlen, hget]
    unfold gen_xor_one
    rw [hget]
    rcases hcbin with h | h <;> rw [h] <;> simp [out_contrib]
  exact ⟨hmain, by rw [hmain, List.length_map]⟩

/-! ## `_get_variables_value` (utils.py lines 45-51)

For each requested variable the source takes the first digit run of the
variable's internal representation, adds 1, and searches the solution
file for the regex `[xyz]_<index>[\s]+[\*]?[\s]*([0-9]*[.]?[0-9]+)`;
the captured number becomes the value, and `0.0` is used when there is
no match.  We embed the regex by a character-level matcher with the
same leftmost-then-greedy semantics, and floats by rationals. -/

/-- Decimal value of a digit run. -/
def digitsVal (ds : List Char) : ℕ :=
  ds.foldl (fun acc c => 10 * acc + (c.toNat - 48)) 0

/-- Python's `\s` character class: space, tab, newline, CR, VT, FF. -/
def isSpaceChar (c : Char) : Bool :=
  c = ' ' || c = '\t' || c = '\n' || c = '\r' || c = '\x0b' || c = '\x0c'

/-- Greedy match of `[0-9]*[.]?[0-9]+` at the head of `s`, returning the
captured characters: a maximal digit run, then `.` followed by at least
one digit if present; a bare maximal digit run otherwise. -/
def matchNumber (s : List Char) : Option (List Char) :=
  let d1 := s.takeWhile Char.isDigit
  let rest := s.drop d1.length
  match rest with
  | '.' :: r2 =>
    let d2 := r2.takeWhile Char.isDigit
    if d2 ≠ [] then some (d1 ++ '.' :: d2)
    else if d1 ≠ [] then some d1 else none
  | _ => if d1 ≠ [] then some d1 else none

/-- Value of a captured decimal numeral as a rational (the float of the
source, `0.5` and `1.0` being exactly representable). -/
def ratOfNumber (cs : List Char) : ℚ :=
  let intPart := cs.takeWhile Char.isDigit
  let rest := cs.drop intPart.length
  match rest with
  | '.' :: frac =>
      (digitsVal intPart : ℚ) + (digitsVal frac : ℚ) / (10 ^ frac.length)
  | _ => (digitsVal intPart : ℚ)

/-- Match `[xyz]_<idx>[\s]+[\*]?[\s]*(number)` at the head of `s`. -/
def matchVarAt (idx : List Char) (s : List Char) : Option (List Char) :=
  match s with
  | c :: '_' :: rest =>
    if (c = 'x' || c = 'y' || c = 'z') && idx.isPrefixOf rest then
      let r2 := rest.drop idx.length
      let ws1 := r2.takeWhile isSpaceChar
      if ws1 = [] then none
      else
        let r3 := r2.drop ws1.length
        let r4 := match r3 with | '*' :: t => t | _ => r3
        let r5 := r4.dropWhile isSpaceChar
        matchNumber r5
    else none
  | _ => none

/-- `re.search`: the leftmost position where the pattern matches. -/
def searchVar (idx : List Char) : List Char → Option (List Char)
  | [] => none
  | c :: t =>
    match matchVarAt idx (c :: t) with
    | some v => some v
    | none => searchVar idx t

/-- `re.search(r'\d+', s)`: the first digit run of `s`, as a number. -/
def firstNumber (s : List Char) : Option ℕ :=
  match (s.dropWhile (fun c => ! c.isDigit)).takeWhile Char.isDigit with
  | [] => none
  | ds => some (digitsVal ds)

/-- The value assigned to a variable of internal index `i`:  the
captured number of the first line matching index `i + 1`, else `0.0`. -/
def varValue (file : List Char) (i : ℕ) : ℚ :=
  match searchVar (Nat.repr (i + 1)).data file with
  | some cap => ratOfNumber cap
  | none => 0

/-- `_get_variables_value(internal_variables, read_file)`: each
requested variable (a key with the internal representation of its
variable) is mapped to its parsed value; `none` models the
`AttributeError` raised when a representation holds no digits. -/
def get_variables_value : List (String × List Char) → List Char →
    Option (List (String × ℚ))
  | [], _ => some []
  | (k, r) :: rest, file =>
    match firstNumber r with
    | none => none
    | some i =>
      match get_variables_value rest file with
      | none => none
      | some tl => some ((k, varValue file i) :: tl)

/-- **C7.** On the literal file `"x_1 * 0.5\ny_2 1.0"` with requested
variables of internal indices 0 and 1, `_get_variables_value` returns
`{var0: 0.5, var1: 1.0}`; and any requested variable whose pattern has
no match in the file gets the value `0.0`. -/
theorem get_variables_value_spec :
    get_variables_value [("var0", "x_0".data), ("var1", "x_1".data)]
        ("x_1 * 0.5\ny_2 1.0").data =
      some [("var0", 1/2), ("var1", 1)] ∧
    (∀ (k : String) (r file : List Char) (i : ℕ),
      firstNumber r = some i →
      searchVar (Nat.repr (i + 1)).data file = none →
      get_variables_value [(k, r)] file = some [(k, 0)]) := by
  constructor
  · have hstep : get_variables_value
        [("var0", "x_0".data), ("var1", "x_1".data)]
        ("x_1 * 0.5\ny_2 1.0").data =
        some [("var0", ratOfNumber ['0', '.', '5']),
              ("var1", ratOfNumber ['1', '.', '0'])] := rfl
    have e05 : ratOfNumber ['0', '.', '5'] = 1/2 := by
      have h : ratOfNumber ['0', '.', '5'] =
          (digitsVal ['0'] : ℚ) + (digitsVal ['5'] : ℚ) /
            (10 ^ (['5'] : List Char).length) := rfl
      rw [h, show digitsVal ['0'] = 0 from rfl,
        show digitsVal ['5'] = 5 from rfl]
      norm_num
    have e10 : ratOfNumber ['1', '.', '0'] = 1 := by
      have h : ratOfNumber ['1', '.', '0'] =
          (digitsVal ['1'] : ℚ) + (digitsVal ['0'] : ℚ) /
            (10 ^ (['0'] : List Char).length) := rfl
      rw [h, show digitsVal ['1'] = 1 from rfl,
        show digitsVal ['0'] = 0 from rfl]
      norm_num
    rw [hstep, e05, e10]
  · intro k r file i hf hs
    simp [get_variables_value, hf, varValue, hs]

/-- Witness for `get_variables_value_spec`: a variable of index 9 with
no match in the file `"nothing here"` gets the value 0. -/
theorem get_variables_value_spec_witness :
    get_variables_value [("v9", "x_9".data)] ("nothing here").data =
      some [("v9", 0)] :=
  get_variables_value_spec.2 "v9" "x_9".data ("nothing here").data 9
    (by rfl) (by rfl)

/-! ## `_parse_external_solver_output` (utils.py lines 54-80)

The source looks up the per-solver specification (regex for the solve
time, marker string for unsatisfiability — external configuration, here
an abstract extraction function and a marker string), extracts the
time via `_get_data` (raising when the regex does not match), and when
the unsat marker occurs in the transcript returns
`('UNSATISFIABLE', None, {}, {}, time)` without opening the solution
file; otherwise it reads the solution file and builds the variable
maps.  The solution file is passed as an `Option` so that the unsat
path's independence from it is expressible. -/

/-- Python `needle in haystack` on strings. -/
def list_contains (needle : List Char) : List Char → Bool
  | [] => needle.isEmpty
  | c :: t => needle.isPrefixOf (c :: t) || list_contains needle t

/-- `_get_data(data_keywords, lines)` with the regex abstracted to an
extraction function; `MIPSolverException` becomes an `Except.error`. -/
def get_data (data_keywords : List Char → Option ℚ) (lines : List Char) :
    Except String ℚ :=
  match data_keywords lines with
  | none => .error "Solver seems installed but license file might be missing."
  | some t => .ok t

/-- `_parse_external_solver_output(model, model_type, solver_name,
solver_process)` returning
`(status, total_weight, probability_variables, components_variables,
solve_time)`. -/
def parse_external_solver_output
    (specs_time : List Char → Option ℚ) (specs_unsat : List Char)
    (model_type : List Char)
    (binary_variables integer_variables : List (String × List Char))
    (solver_process : List Char) (solution_file : Option (List Char)) :
    Except String
      (String × Option ℚ × List (String × ℚ) × List (String × ℚ) × ℚ) :=
  match get_data specs_time solver_process with
  | .error e => .error e
  | .ok solve_time =>
    if list_contains specs_unsat solver_process = false then
      match solution_file with
      | none => .error "could not read solution file"
      | some read_file =>
        match get_variables_value binary_variables read_file,
              get_variables_value integer_variables read_file with
        | some components_variables, some probability_variables =>
          match probability_variables.lookup "probability" with
          | none => .error "KeyError: probability"
          | some p =>
            let total_weight : ℚ :=
              if list_contains
                  ("deterministic_truncated_xor_differential").data model_type
              then p else p / 10
            .ok ("SATISFIABLE", some total_weight, probability_variables,
                 components_variables, solve_time)
        | _, _ => .error "AttributeError"
    else
      .ok ("UNSATISFIABLE", none, [], [], solve_time)

/-- **C10.** Whenever the solver specification's unsatisfiability marker
occurs in the transcript (and the time extraction succeeds, since
`_get_data` runs first and raises otherwise), the parser returns status
`'UNSATISFIABLE'` with `total_weight = None` and empty variable maps,
and the result does not depend on the solution file — the file is never
read on that path. -/
theorem parse_external_solver_output_unsat
    (specs_time : List Char → Option ℚ) (specs_unsat model_type : List Char)
    (bv iv : List (String × List Char)) (proc : List Char)
    (file : Option (List Char)) (t : ℚ)
    (ht : specs_time proc = some t)
    (hu : list_contains specs_unsat proc = true) :
    parse_external_solver_output specs_time specs_unsat model_type bv iv
        proc file = .ok ("UNSATISFIABLE", none, [], [], t) ∧
    parse_external_solver_output specs_time specs_unsat model_type bv iv
        proc file =
      parse_external_solver_output specs_time specs_unsat model_type bv iv
        proc none := by
  have hparse : ∀ f, parse_external_solver_output specs_time specs_unsat
      model_type bv iv proc f = .ok ("UNSATISFIABLE", none, [], [], t) := by
    intro f
    unfold parse_external_solver_output get_data
    rw [ht, hu]
    simp
  exact ⟨hparse file, by rw [hparse file, hparse none]⟩

/-- Witness for `parse_external_solver_output_unsat` on a concrete
transcript containing the marker `"Infeasible"`. -/
theorem parse_external_solver_output_unsat_witness :
    parse_external_solver_output (fun _ => some 7) ("Infeasible").data
        ("xor_differential").data [] [] ("model is Infeasible : time 7").data
        (some ("x_1 2.0").data) =
      .ok ("UNSATISFIABLE", none, [], [], 7) ∧
    parse_external_solver_output (fun _ => some 7) ("Infeasible").data
        ("xor_differential").data [] [] ("model is Infeasible : time 7").data
        (some ("x_1 2.0").data) =
      parse_external_solver_output (fun _ => some 7) ("Infeasible").data
        ("xor_differential").data [] [] ("model is Infeasible : time 7").data
        none :=
  parse_external_solver_output_unsat (fun _ => some 7) ("Infeasible").data
    ("xor_differential").data [] [] ("model is Infeasible : time 7").data
    (some ("x_1 2.0").data) 7 rfl (by rfl)

/-! ## `milp_if_elif_else` (utils.py lines 383-440), `num_cond > 1`

The conditional encoder receives pre-built constraint objects that are
either inequalities `lhs <= rhs` or equalities, and rewrites them under
a big-M relaxation.  We embed a constraint by its two sides evaluated
at the assignment under test, and the generated system by the list of
`(lhs, rhs)` inequalities it emits — including the two selector
constraints per branch (`decision_constraints <= d_i + n - 1` and
`d_i <= (1/n) * decision_constraints`, the source's
`1./num_cond * decision_constraints >= decision_var[i]`), the relaxed
then-branches (factor `1 - d_i`) and the relaxed else branch (factor
`sum(decision_var)`).  `dec` holds the values of the fresh binary
selector variables.  This models the `num_cond > 1` path of the
source; `num_cond == 1` delegates to `milp_if_then_else`. -/
inductive MilpConstraint where
  | isLe (lhs rhs : ℚ)
  | isEq (lhs rhs : ℚ)

/-- A list of rational constraints `(lhs, rhs)`, all read `lhs ≤ rhs`. -/
def all_leQ (l : List (ℚ × ℚ)) : Prop := ∀ c ∈ l, c.1 ≤ c.2

instance (l : List (ℚ × ℚ)) : Decidable (all_leQ l) :=
  List.decidableBAll _ l

/-- Big-M relaxation of one constraint by `bigM * factor` (the body of
`milp_if_then` / the else loop): an inequality gives one relaxed
inequality, an equality both directions. -/
def relax (bigM factor : ℚ) : MilpConstraint → List (ℚ × ℚ)
  | .isLe l r => [(l, r + bigM * factor)]
  | .isEq l r => [(l, r + bigM * factor), (r, l + bigM * factor)]

/-- The source's `decision_constraints` for branch `i`:
`sum_{j<i} (1 - cond[j]) + cond[i]`. -/
def decision_lhs (cond : List ℚ) (i : ℕ) : ℚ :=
  ((List.range i).map (fun j => 1 - cond.getD j 0)).sum + cond.getD i 0

/-- The constraint system generated by `milp_if_elif_else` for
`num_cond > 1`, at condition values `cond`, selector values `dec`. -/
def milp_if_elif_else (cond : List ℚ) (thens : List (List MilpConstraint))
    (els : List MilpConstraint) (bigM : ℚ) (dec : List ℚ) : List (ℚ × ℚ) :=
  let n : ℚ := (cond.length : ℚ)
  ((List.range cond.length).map (fun i =>
    [(decision_lhs cond i, dec.getD i 0 + n - 1),
     (dec.getD i 0, (1 / n) * decision_lhs cond i)] ++
    (thens.getD i []).flatMap (relax bigM (1 - dec.getD i 0)))).flatten ++
  els.flatMap (relax bigM dec.sum)

/-- **C6 (code bug).** For the one-hot condition vector `(1, 0)` with
`n = 2`, the claim (and the source's docstring) say branch 0 is
enforced; instead: (i) the assignment with both selectors 0 satisfies
every generated constraint of the system with `then_0 = [7 ≤ 0]`,
`then_1 = [7 ≤ 5]`, `else = [7 ≤ 7]`, `bigM = 100` — yet `7 ≤ 0`
fails, so branch 0 is not enforced (the else branch is); and (ii) the
selector constraints alone force both selectors to 0 for every 0/1
assignment, because `d_0 ≤ (1/2) * decision_constraints = 1/2`. -/
theorem milp_if_elif_else_first_branch_bug :
    all_leQ (milp_if_elif_else [1, 0]
        [[MilpConstraint.isLe 7 0], [MilpConstraint.isLe 7 5]]
        [MilpConstraint.isLe 7 7] 100 [0, 0]) ∧
    ¬ ((7 : ℚ) ≤ 0) ∧
    (∀ d0 d1 : ℚ, (d0 = 0 ∨ d0 = 1) → (d1 = 0 ∨ d1 = 1) →
      all_leQ (milp_if_elif_else [1, 0] [[], []] [] 100 [d0, d1]) →
      d0 = 0 ∧ d1 = 0) := by
  refine ⟨?_, by norm_num, ?_⟩
  · norm_num [milp_if_elif_else, decision_lhs, relax, all_leQ,
      List.range_succ, List.forall_mem_cons, List.forall_mem_append]
  · intro d0 d1 h0 h1 hall
    norm_num [milp_if_elif_else, decision_lhs, relax, all_leQ,
      List.range_succ, List.forall_mem_cons, List.forall_mem_append] at hall
    rcases h0 with rfl | rfl <;> rcases h1 with rfl | rfl
    · exact ⟨rfl, rfl⟩
    all_goals (exfalso; norm_num at hall)

/-- Witness for `milp_if_elif_else_first_branch_bug`, applying its
hypothesis-bearing conjunct at the all-zero selector assignment. -/
theorem milp_if_elif_else_first_branch_bug_witness :
    (0 : ℚ) = 0 ∧ (0 : ℚ) = 0 :=
  milp_if_elif_else_first_branch_bug.2.2 0 0 (Or.inl rfl) (Or.inl rfl)
    (by norm_num [milp_if_elif_else, decision_lhs, relax, all_leQ,
          List.range_succ, List.forall_mem_cons, List.forall_mem_append])
/-- The 91 ternary patterns of `milp_xor_truncated_wordwise`
(utils.py 521-566), each of length 30: per word, two class bits
(the tuple `(v0, v1)` of the docstring, `v0` the MSB) followed by
eight bit-level variables, for the two input words and the output
word. -/
def wordwise_pats : List String :=
    [
     "0-00000000-0---------1--------",
     "-0--------0-00000000-1--------",
     "-1----------00000000-0--------",
     "--00000000-1---------0--------",
     "---------------------01-------",
     "--------------------0100000000",
     "---------------------0-1------",
     "--------------------1-1-------",
     "---------------------0--1-----",
     "--------------------1--1------",
     "---------------------0---1----",
     "--------------------1---1-----",
     "---------------------0----1---",
     "--------------------1----1----",
     "---------------------0-----1--",
     "--1---------0-------0-0-------",
     "--0---------1-------0-0-------",
     "---------------------0------1-",
     "---1---------0------0--0------",
     "---0---------1------0--0------",
     "----1---------0-----0---0-----",
     "----0---------1-----0---0-----",
     "--------------------1-----1---",
     "-----1---------0----0----0----",
     "-----0---------1----0----0----",
     "------1---------0---0-----0---",
     "------0---------1---0-----0---",
     "-------1---------0--0------0--",
     "-------0---------1--0------0--",
     "--------1---------0-0-------0-",
     "--------0---------1-0-------0-",
     "---------1---------00--------0",
     "---------0---------10--------0",
     "---------------------0-------1",
     "--------------------1------1--",
     "--------------------1-------1-",
     "--------------------1--------1",
     "0100000000--------------------",
     "----------0100000000----------",
     "---------0---------0---------1",
     "---------1---------1---------1",
     "1---------1----------0--------",
     "0---------0---------1---------",
     "-------0---------0---------1--",
     "------0---------0---------1---",
     "-----0---------0---------1----",
     "----0---------0---------1-----",
     "---0---------0---------1------",
     "--0---------0---------1-------",
     "--------0---------0---------1-",
     "--------1---------1---------1-",
     "--1---------1---------1-------",
     "------1---------1---------1---",
     "-----1---------1---------1----",
     "----1---------1---------1-----",
     "---1---------1---------1------",
     "-------1---------1---------1--",
     "----------1---------0---------",
     "1-------------------0---------",
     "-----------0------1-----------",
     "----------1-------1-----------",
     "-----------01-----------------",
     "----------1-1-----------------",
     "-----------0----1-------------",
     "----------1-----1-------------",
     "-----------0---1--------------",
     "----------1----1--------------",
     "-----------0--1---------------",
     "----------1---1---------------",
     "-----------0-1----------------",
     "----------1--1----------------",
     "-0------1---------------------",
     "-0-----1----------------------",
     "-0----1-----------------------",
     "-0---1------------------------",
     "-0--1-------------------------",
     "-0-1--------------------------",
     "-01---------------------------",
     "-----------0-----1------------",
     "----------1------1------------",
     "1-------1---------------------",
     "1------1----------------------",
     "1-----1-----------------------",
     "1----1------------------------",
     "1---1-------------------------",
     "1--1--------------------------",
     "1-1---------------------------",
     "-----------0-------1----------",
     "----------1--------1----------",
     "-0-------1--------------------",
     "1--------1--------------------"]

/-- `milp_xor_truncated_wordwise(model, input_1, input_2, output)`:
one constraint `sum >= 1` per pattern over
`all_vars = input_1 + input_2 + output`; the list of left-hand sums. -/
def milp_xor_truncated_wordwise (input_1 input_2 output : List ℤ) : List ℤ :=
  wordwise_pats.map (fun p => espresso_sum p.data (input_1 ++ input_2 ++ output))

/-- A truncated word: two class bits (`c0` the MSB) and eight
bit-level variables, as used by the wordwise deterministic truncated
model (the per-word variable layout of the caller). -/
structure TWord where
  c0 : Bool
  c1 : Bool
  b0 : Bool
  b1 : Bool
  b2 : Bool
  b3 : Bool
  b4 : Bool
  b5 : Bool
  b6 : Bool
  b7 : Bool

/-- The 10-entry variable vector of a word. -/
def TWord.vars (w : TWord) : List ℤ :=
  [b2i w.c0, b2i w.c1, b2i w.b0, b2i w.b1, b2i w.b2, b2i w.b3, b2i w.b4, b2i w.b5, b2i w.b6, b2i w.b7]

/-- The class value of a word, decoded from its two class bits. -/
def wordVal (w : TWord) : ℕ := pairVal w.c0 w.c1

/-- The transition table in the docstring of
`milp_xor_truncated_wordwise` (utils.py 493-513): 17 rows — the input
pair `(1, 1)` has the two output rows `0` and `1`. -/
def wordwise_table : List (ℕ × ℕ × ℕ) :=
  [(0, 0, 0),
   (0, 1, 1),
   (0, 2, 2),
   (0, 3, 3),
   (1, 0, 1),
   (1, 1, 0),
   (1, 1, 1),
   (1, 2, 3),
   (1, 3, 3),
   (2, 0, 2),
   (2, 1, 3),
   (2, 2, 3),
   (2, 3, 3),
   (3, 0, 3),
   (3, 1, 3),
   (3, 2, 3),
   (3, 3, 3)]

/-- The wordwise constraint system holds at words `a`, `b`, `c`. -/
def wwSat (a b c : TWord) : Prop :=
  all_ge_one (milp_xor_truncated_wordwise a.vars b.vars c.vars)

instance (a b c : TWord) : Decidable (wwSat a b c) :=
  List.decidableBAll _ _

theorem ww_extract (a b c : TWord) (h : wwSat a b c) (p : String)
    (hp : p ∈ wordwise_pats) :
    1 ≤ espresso_sum p.data (a.vars ++ b.vars ++ c.vars) :=
  h _ (List.mem_map_of_mem _ hp)

/-- The joint force of the 4 patterns that touch only class bits,
written over the six class-bit values (in vector order). -/
@[reducible] def classOK (p q r s t u : Bool) : Prop :=
  (1 ≤ (1 - b2i p) + ((1 - b2i r) + (b2i u + 0))) ∧
  (1 ≤ b2i p + (b2i r + ((1 - b2i t) + 0))) ∧
  (1 ≤ (1 - b2i r) + (b2i t + 0)) ∧
  (1 ≤ (1 - b2i p) + (b2i t + 0))

theorem ww_class (a b c : TWord) (h : wwSat a b c) :
    classOK a.c0 a.c1 b.c0 b.c1 c.c0 c.c1 :=
  ⟨ww_extract a b c h "1---------1----------0--------" (by decide),
   ww_extract a b c h "0---------0---------1---------" (by decide),
   ww_extract a b c h "----------1---------0---------" (by decide),
   ww_extract a b c h "1-------------------0---------" (by decide)⟩

/-- The joint force, at one bit position, of the 10 patterns that
touch the class bits and that position's three bit variables
(`x`, `y`, `z` for the two inputs and the output); the same shape
recurs at every one of the 8 bit positions. -/
@[reducible] def perBitOK (p q r s t u x y z : Bool) : Prop :=
  (1 ≤ b2i u + ((1 - b2i z) + 0)) ∧
  (1 ≤ (1 - b2i t) + ((1 - b2i z) + 0)) ∧
  (1 ≤ (1 - b2i x) + (b2i y + (b2i t + (b2i z + 0)))) ∧
  (1 ≤ b2i x + ((1 - b2i y) + (b2i t + (b2i z + 0)))) ∧
  (1 ≤ b2i x + (b2i y + ((1 - b2i z) + 0))) ∧
  (1 ≤ (1 - b2i x) + ((1 - b2i y) + ((1 - b2i z) + 0))) ∧
  (1 ≤ b2i s + ((1 - b2i y) + 0)) ∧
  (1 ≤ (1 - b2i r) + ((1 - b2i y) + 0)) ∧
  (1 ≤ b2i q + ((1 - b2i x) + 0)) ∧
  (1 ≤ (1 - b2i p) + ((1 - b2i x) + 0))

theorem ww_slices (a b c : TWord) (h : wwSat a b c) :
    perBitOK a.c0 a.c1 b.c0 b.c1 c.c0 c.c1 a.b0 b.b0 c.b0 ∧
    perBitOK a.c0 a.c1 b.c0 b.c1 c.c0 c.c1 a.b1 b.b1 c.b1 ∧
    perBitOK a.c0 a.c1 b.c0 b.c1 c.c0 c.c1 a.b2 b.b2 c.b2 ∧
    perBitOK a.c0 a.c1 b.c0 b.c1 c.c0 c.c1 a.b3 b.b3 c.b3 ∧
    perBitOK a.c0 a.c1 b.c0 b.c1 c.c0 c.c1 a.b4 b.b4 c.b4 ∧
    perBitOK a.c0 a.c1 b.c0 b.c1 c.c0 c.c1 a.b5 b.b5 c.b5 ∧
    perBitOK a.c0 a.c1 b.c0 b.c1 c.c0 c.c1 a.b6 b.b6 c.b6 ∧
    perBitOK a.c0 a.c1 b.c0 b.c1 c.c0 c.c1 a.b7 b.b7 c.b7 :=
  ⟨⟨ww_extract a b c h "---------------------01-------" (by decide),
    ww_extract a b c h "--------------------1-1-------" (by decide),
    ww_extract a b c h "--1---------0-------0-0-------" (by decide),
    ww_extract a b c h "--0---------1-------0-0-------" (by decide),
    ww_extract a b c h "--0---------0---------1-------" (by decide),
    ww_extract a b c h "--1---------1---------1-------" (by decide),
    ww_extract a b c h "-----------01-----------------" (by decide),
    ww_extract a b c h "----------1-1-----------------" (by decide),
    ww_extract a b c h "-01---------------------------" (by decide),
    ww_extract a b c h "1-1---------------------------" (by decide)⟩,
   ⟨ww_extract a b c h "---------------------0-1------" (by decide),
    ww_extract a b c h "--------------------1--1------" (by decide),
    ww_extract a b c h "---1---------0------0--0------" (by decide),
    ww_extract a b c h "---0---------1------0--0------" (by decide),
    ww_extract a b c h "---0---------0---------1------" (by decide),
    ww_extract a b c h "---1---------1---------1------" (by decide),
    ww_extract a b c h "-----------0-1----------------" (by decide),
    ww_extract a b c h "----------1--1----------------" (by decide),
    ww_extract a b c h "-0-1--------------------------" (by decide),
    ww_extract a b c h "1--1--------------------------" (by decide)⟩,
   ⟨ww_extract a b c h "---------------------0--1-----" (by decide),
    ww_extract a b c h "--------------------1---1-----" (by decide),
    ww_extract a b c h "----1---------0-----0---0-----" (by decide),
    ww_extract a b c h "----0---------1-----0---0-----" (by decide),
    ww_extract a b c h "----0---------0---------1-----" (by decide),
    ww_extract a b c h "----1---------1---------1-----" (by decide),
    ww_extract a b c h "-----------0--1---------------" (by decide),
    ww_extract a b c h "----------1---1---------------" (by decide),
    ww_extract a b c h "-0--1-------------------------" (by decide),
    ww_extract a b c h "1---1-------------------------" (by decide)⟩,
   ⟨ww_extract a b c h "---------------------0---1----" (by decide),
    ww_extract a b c h "--------------------1----1----" (by decide),
    ww_extract a b c h "-----1---------0----0----0----" (by decide),
    ww_extract a b c h "-----0---------1----0----0----" (by decide),
    ww_extract a b c h "-----0---------0---------1----" (by decide),
    ww_extract a b c h "-----1---------1---------1----" (by decide),
    ww_extract a b c h "-----------0---1--------------" (by decide),
    ww_extract a b c h "----------1----1--------------" (by decide),
    ww_extract a b c h "-0---1------------------------" (by decide),
    ww_extract a b c h "1----1------------------------" (by decide)⟩,
   ⟨ww_extract a b c h "---------------------0----1---" (by decide),
    ww_extract a b c h "--------------------1-----1---" (by decide),
    ww_extract a b c h "------1---------0---0-----0---" (by decide),
    ww_extract a b c h "------0---------1---0-----0---" (by decide),
    ww_extract a b c h "------0---------0---------1---" (by decide),
    ww_extract a b c h "------1---------1---------1---" (by decide),
    ww_extract a b c h "-----------0----1-------------" (by decide),
    ww_extract a b c h "----------1-----1-------------" (by decide),
    ww_extract a b c h "-0----1-----------------------" (by decide),
    ww_extract a b c h "1-----1-----------------------" (by decide)⟩,
   ⟨ww_extract a b c h "---------------------0-----1--" (by decide),
    ww_extract a b c h "--------------------1------1--" (by decide),
    ww_extract a b c h "-------1---------0--0------0--" (by decide),
    ww_extract a b c h "-------0---------1--0------0--" (by decide),
    ww_extract a b c h "-------0---------0---------1--" (by decide),
    ww_extract a b c h "-------1---------1---------1--" (by decide),
    ww_extract a b c h "-----------0-----1------------" (by decide),
    ww_extract a b c h "----------1------1------------" (by decide),
    ww_extract a b c h "-0-----1----------------------" (by decide),
    ww_extract a b c h "1------1----------------------" (by decide)⟩,
   ⟨ww_extract a b c h "---------------------0------1-" (by decide),
    ww_extract a b c h "--------------------1-------1-" (by decide),
    ww_extract a b c h "--------1---------0-0-------0-" (by decide),
    ww_extract a b c h "--------0---------1-0-------0-" (by decide),
    ww_extract a b c h "--------0---------0---------1-" (by decide),
    ww_extract a b c h "--------1---------1---------1-" (by decide),
    ww_extract a b c h "-----------0------1-----------" (by decide),
    ww_extract a b c h "----------1-------1-----------" (by decide),
    ww_extract a b c h "-0------1---------------------" (by decide),
    ww_extract a b c h "1-------1---------------------" (by decide)⟩,
   ⟨ww_extract a b c h "---------------------0-------1" (by decide),
    ww_extract a b c h "--------------------1--------1" (by decide),
    ww_extract a b c h "---------1---------00--------0" (by decide),
    ww_extract a b c h "---------0---------10--------0" (by decide),
    ww_extract a b c h "---------0---------0---------1" (by decide),
    ww_extract a b c h "---------1---------1---------1" (by decide),
    ww_extract a b c h "-----------0-------1----------" (by decide),
    ww_extract a b c h "----------1--------1----------" (by decide),
    ww_extract a b c h "-0-------1--------------------" (by decide),
    ww_extract a b c h "1--------1--------------------" (by decide)⟩⟩

theorem ww_fw0 (w0 w1 w2 w3 w4 w5 w6 w7 : Bool)
    (hs : 1 ≤ b2i false + (b2i w0 + (b2i w1 + (b2i w2 + (b2i w3 + (b2i w4 + (b2i w5 + (b2i w6 + (b2i w7 + (b2i false + ((1 - b2i true) + 0))))))))))) :
    (w0 || w1 || w2 || w3 || w4 || w5 || w6 || w7) = true := by
  revert w0 w1 w2 w3 w4 w5 w6 w7
  decide

theorem ww_fw1 (w0 w1 w2 w3 w4 w5 w6 w7 : Bool)
    (hs : 1 ≤ b2i false + (b2i false + (b2i w0 + (b2i w1 + (b2i w2 + (b2i w3 + (b2i w4 + (b2i w5 + (b2i w6 + (b2i w7 + ((1 - b2i true) + 0))))))))))) :
    (w0 || w1 || w2 || w3 || w4 || w5 || w6 || w7) = true := by
  revert w0 w1 w2 w3 w4 w5 w6 w7
  decide

theorem ww_fw2 (w0 w1 w2 w3 w4 w5 w6 w7 : Bool)
    (hs : 1 ≤ (1 - b2i true) + (b2i w0 + (b2i w1 + (b2i w2 + (b2i w3 + (b2i w4 + (b2i w5 + (b2i w6 + (b2i w7 + (b2i false + 0)))))))))) :
    (w0 || w1 || w2 || w3 || w4 || w5 || w6 || w7) = true := by
  revert w0 w1 w2 w3 w4 w5 w6 w7
  decide

theorem ww_fw3 (w0 w1 w2 w3 w4 w5 w6 w7 : Bool)
    (hs : 1 ≤ b2i w0 + (b2i w1 + (b2i w2 + (b2i w3 + (b2i w4 + (b2i w5 + (b2i w6 + (b2i w7 + ((1 - b2i true) + (b2i false + 0)))))))))) :
    (w0 || w1 || w2 || w3 || w4 || w5 || w6 || w7) = true := by
  revert w0 w1 w2 w3 w4 w5 w6 w7
  decide

theorem ww_elim_001 (x y z : Bool)
    (hp : perBitOK false false false false false true x y z) : x = false := by
  revert x y z
  decide

theorem ww_elim_010 (x y z : Bool)
    (hp : perBitOK false false false true false false x y z) : x = false := by
  revert x y z
  decide

theorem ww_elim_023 (x y z : Bool)
    (hp : perBitOK false false true false true true x y z) : x = false := by
  revert x y z
  decide

theorem ww_elim_032 (x y z : Bool)
    (hp : perBitOK false false true true true false x y z) : x = false := by
  revert x y z
  decide

theorem ww_elim_100 (x y z : Bool)
    (hp : perBitOK false true false false false false x y z) : y = false := by
  revert x y z
  decide

theorem ww_elim_122 (x y z : Bool)
    (hp : perBitOK false true true false true false x y z) : y = false := by
  revert x y z
  decide

theorem ww_elim_132 (x y z : Bool)
    (hp : perBitOK false true true true true false x y z) : y = false := by
  revert x y z
  decide

theorem ww_elim_203 (x y z : Bool)
    (hp : perBitOK true false false false true true x y z) : y = false := by
  revert x y z
  decide

theorem ww_elim_212 (x y z : Bool)
    (hp : perBitOK true false false true true false x y z) : x = false := by
  revert x y z
  decide

theorem ww_elim_302 (x y z : Bool)
    (hp : perBitOK true true false false true false x y z) : y = false := by
  revert x y z
  decide

theorem ww_elim_312 (x y z : Bool)
    (hp : perBitOK true true false true true false x y z) : x = false := by
  revert x y z
  decide

theorem ww_complete (a b c : TWord) (h : wwSat a b c) :
    (wordVal a, wordVal b, wordVal c) ∈ wordwise_table := by
  obtain ⟨hp0, hp1, hp2, hp3, hp4, hp5, hp6, hp7⟩ := ww_slices a b c h
  have hc := ww_class a b c h
  have hf0 := ww_extract a b c h "0-00000000-0---------1--------" (by decide)
  have hf1 := ww_extract a b c h "-0--------0-00000000-1--------" (by decide)
  have hf2 := ww_extract a b c h "-1----------00000000-0--------" (by decide)
  have hf3 := ww_extract a b c h "--00000000-1---------0--------" (by decide)
  rcases a with ⟨ac0, ac1, ab0, ab1, ab2, ab3, ab4, ab5, ab6, ab7⟩
  rcases b with ⟨bc0, bc1, bb0, bb1, bb2, bb3, bb4, bb5, bb6, bb7⟩
  rcases c with ⟨cc0, cc1, cb0, cb1, cb2, cb3, cb4, cb5, cb6, cb7⟩
  cases ac0 <;> cases ac1 <;> cases bc0 <;> cases bc1 <;> cases cc0 <;> cases cc1
  · exact (by decide : ((0, 0, 0) : ℕ × ℕ × ℕ) ∈ wordwise_table)
  · have e0 : ab0 = false := ww_elim_001 ab0 bb0 cb0 hp0
    have e1 : ab1 = false := ww_elim_001 ab1 bb1 cb1 hp1
    have e2 : ab2 = false := ww_elim_001 ab2 bb2 cb2 hp2
    have e3 : ab3 = false := ww_elim_001 ab3 bb3 cb3 hp3
    have e4 : ab4 = false := ww_elim_001 ab4 bb4 cb4 hp4
    have e5 : ab5 = false := ww_elim_001 ab5 bb5 cb5 hp5
    have e6 : ab6 = false := ww_elim_001 ab6 bb6 cb6 hp6
    have e7 : ab7 = false := ww_elim_001 ab7 bb7 cb7 hp7
    exact absurd (ww_fw0 ab0 ab1 ab2 ab3 ab4 ab5 ab6 ab7 hf0)
      (by simp [e0, e1, e2, e3, e4, e5, e6, e7])
  · exact absurd hc (by decide : ¬ classOK false false false false true false)
  · exact absurd hc (by decide : ¬ classOK false false false false true true)
  · have e0 : ab0 = false := ww_elim_010 ab0 bb0 cb0 hp0
    have e1 : ab1 = false := ww_elim_010 ab1 bb1 cb1 hp1
    have e2 : ab2 = false := ww_elim_010 ab2 bb2 cb2 hp2
    have e3 : ab3 = false := ww_elim_010 ab3 bb3 cb3 hp3
    have e4 : ab4 = false := ww_elim_010 ab4 bb4 cb4 hp4
    have e5 : ab5 = false := ww_elim_010 ab5 bb5 cb5 hp5
    have e6 : ab6 = false := ww_elim_010 ab6 bb6 cb6 hp6
    have e7 : ab7 = false := ww_elim_010 ab7 bb7 cb7 hp7
    exact absurd (ww_fw3 ab0 ab1 ab2 ab3 ab4 ab5 ab6 ab7 hf3)
      (by simp [e0, e1, e2, e3, e4, e5, e6, e7])
  · exact (by decide : ((0, 1, 1) : ℕ × ℕ × ℕ) ∈ wordwise_table)
  · exact absurd hc (by decide : ¬ classOK false false false true true false)
  · exact absurd hc (by decide : ¬ classOK false false false true true true)
  · exact absurd hc (by decide : ¬ classOK false false true false false false)
  · exact absurd hc (by decide : ¬ classOK false false true false false true)
  · exact (by decide : ((0, 2, 2) : ℕ × ℕ × ℕ) ∈ wordwise_table)
  · have e0 : ab0 = false := ww_elim_023 ab0 bb0 cb0 hp0
    have e1 : ab1 = false := ww_elim_023 ab1 bb1 cb1 hp1
    have e2 : ab2 = false := ww_elim_023 ab2 bb2 cb2 hp2
    have e3 : ab3 = false := ww_elim_023 ab3 bb3 cb3 hp3
    have e4 : ab4 = false := ww_elim_023 ab4 bb4 cb4 hp4
    have e5 : ab5 = false := ww_elim_023 ab5 bb5 cb5 hp5
    have e6 : ab6 = false := ww_elim_023 ab6 bb6 cb6 hp6
    have e7 : ab7 = false := ww_elim_023 ab7 bb7 cb7 hp7
    exact absurd (ww_fw0 ab0 ab1 ab2 ab3 ab4 ab5 ab6 ab7 hf0)
      (by simp [e0, e1, e2, e3, e4, e5, e6, e7])
  · exact absurd hc (by decide : ¬ classOK false false true true false false)
  · exact absurd hc (by decide : ¬ classOK false false true true false true)
  · have e0 : ab0 = false := ww_elim_032 ab0 bb0 cb0 hp0
    have e1 : ab1 = false := ww_elim_032 ab1 bb1 cb1 hp1
    have e2 : ab2 = false := ww_elim_032 ab2 bb2 cb2 hp2
    have e3 : ab3 = false := ww_elim_032 ab3 bb3 cb3 hp3
    have e4 : ab4 = false := ww_elim_032 ab4 bb4 cb4 hp4
    have e5 : ab5 = false := ww_elim_032 ab5 bb5 cb5 hp5
    have e6 : ab6 = false := ww_elim_032 ab6 bb6 cb6 hp6
    have e7 : ab7 = false := ww_elim_032 ab7 bb7 cb7 hp7
    exact absurd (ww_fw3 ab0 ab1 ab2 ab3 ab4 ab5 ab6 ab7 hf3)
      (by simp [e0, e1, e2, e3, e4, e5, e6, e7])
  · exact (by decide : ((0, 3, 3) : ℕ × ℕ × ℕ) ∈ wordwise_table)
  · have e0 : bb0 = false := ww_elim_100 ab0 bb0 cb0 hp0
    have e1 : bb1 = false := ww_elim_100 ab1 bb1 cb1 hp1
    have e2 : bb2 = false := ww_elim_100 ab2 bb2 cb2 hp2
    have e3 : bb3 = false := ww_elim_100 ab3 bb3 cb3 hp3
    have e4 : bb4 = false := ww_elim_100 ab4 bb4 cb4 hp4
    have e5 : bb5 = false := ww_elim_100 ab5 bb5 cb5 hp5
    have e6 : bb6 = false := ww_elim_100 ab6 bb6 cb6 hp6
    have e7 : bb7 = false := ww_elim_100 ab7 bb7 cb7 hp7
    exact absurd (ww_fw2 bb0 bb1 bb2 bb3 bb4 bb5 bb6 bb7 hf2)
      (by simp [e0, e1, e2, e3, e4, e5, e6, e7])
  · exact (by decide : ((1, 0, 1) : ℕ × ℕ × ℕ) ∈ wordwise_table)
  · exact absurd hc (by decide : ¬ classOK false true false false true false)
  · exact absurd hc (by decide : ¬ classOK false true false false true true)
  · exact (by decide : ((1, 1, 0) : ℕ × ℕ × ℕ) ∈ wordwise_table)
  · exact (by decide : ((1, 1, 1) : ℕ × ℕ × ℕ) ∈ wordwise_table)
  · exact absurd hc (by decide : ¬ classOK false true false true true false)
  · exact absurd hc (by decide : ¬ classOK false true false true true true)
  · exact absurd hc (by decide : ¬ classOK false true true false false false)
  · exact absurd hc (by decide : ¬ classOK false true true false false true)
  · have e0 : bb0 = false := ww_elim_122 ab0 bb0 cb0 hp0
    have e1 : bb1 = false := ww_elim_122 ab1 bb1 cb1 hp1
    have e2 : bb2 = false := ww_elim_122 ab2 bb2 cb2 hp2
    have e3 : bb3 = false := ww_elim_122 ab3 bb3 cb3 hp3
    have e4 : bb4 = false := ww_elim_122 ab4 bb4 cb4 hp4
    have e5 : bb5 = false := ww_elim_122 ab5 bb5 cb5 hp5
    have e6 : bb6 = false := ww_elim_122 ab6 bb6 cb6 hp6
    have e7 : bb7 = false := ww_elim_122 ab7 bb7 cb7 hp7
    exact absurd (ww_fw2 bb0 bb1 bb2 bb3 bb4 bb5 bb6 bb7 hf2)
      (by simp [e0, e1, e2, e3, e4, e5, e6, e7])
  · exact (by decide : ((1, 2, 3) : ℕ × ℕ × ℕ) ∈ wordwise_table)
  · exact absurd hc (by decide : ¬ classOK false true true true false false)
  · exact absurd hc (by decide : ¬ classOK false true true true false true)
  · have e0 : bb0 = false := ww_elim_132 ab0 bb0 cb0 hp0
    have e1 : bb1 = false := ww_elim_132 ab1 bb1 cb1 hp1
    have e2 : bb2 = false := ww_elim_132 ab2 bb2 cb2 hp2
    have e3 : bb3 = false := ww_elim_132 ab3 bb3 cb3 hp3
    have e4 : bb4 = false := ww_elim_132 ab4 bb4 cb4 hp4
    have e5 : bb5 = false := ww_elim_132 ab5 bb5 cb5 hp5
    have e6 : bb6 = false := ww_elim_132 ab6 bb6 cb6 hp6
    have e7 : bb7 = false := ww_elim_132 ab7 bb7 cb7 hp7
    exact absurd (ww_fw2 bb0 bb1 bb2 bb3 bb4 bb5 bb6 bb7 hf2)
      (by simp [e0, e1, e2, e3, e4, e5, e6, e7])
  · exact (by decide : ((1, 3, 3) : ℕ × ℕ × ℕ) ∈ wordwise_table)
  · exact absurd hc (by decide : ¬ classOK true false false false false false)
  · exact absurd hc (by decide : ¬ classOK true false false false false true)
  · exact (by decide : ((2, 0, 2) : ℕ × ℕ × ℕ) ∈ wordwise_table)
  · have e0 : bb0 = false := ww_elim_203 ab0 bb0 cb0 hp0
    have e1 : bb1 = false := ww_elim_203 ab1 bb1 cb1 hp1
    have e2 : bb2 = false := ww_elim_203 ab2 bb2 cb2 hp2
    have e3 : bb3 = false := ww_elim_203 ab3 bb3 cb3 hp3
    have e4 : bb4 = false := ww_elim_203 ab4 bb4 cb4 hp4
    have e5 : bb5 = false := ww_elim_203 ab5 bb5 cb5 hp5
    have e6 : bb6 = false := ww_elim_203 ab6 bb6 cb6 hp6
    have e7 : bb7 = false := ww_elim_203 ab7 bb7 cb7 hp7
    exact absurd (ww_fw1 bb0 bb1 bb2 bb3 bb4 bb5 bb6 bb7 hf1)
      (by simp [e0, e1, e2, e3, e4, e5, e6, e7])
  · exact absurd hc (by decide : ¬ classOK true false false true false false)
  · exact absurd hc (by decide : ¬ classOK true false false true false true)
  · have e0 : ab0 = false := ww_elim_212 ab0 bb0 cb0 hp0
    have e1 : ab1 = false := ww_elim_212 ab1 bb1 cb1 hp1
    have e2 : ab2 = false := ww_elim_212 ab2 bb2 cb2 hp2
    have e3 : ab3 = false := ww_elim_212 ab3 bb3 cb3 hp3
    have e4 : ab4 = false := ww_elim_212 ab4 bb4 cb4 hp4
    have e5 : ab5 = false := ww_elim_212 ab5 bb5 cb5 hp5
    have e6 : ab6 = false := ww_elim_212 ab6 bb6 cb6 hp6
    have e7 : ab7 = false := ww_elim_212 ab7 bb7 cb7 hp7
    exact absurd (ww_fw3 ab0 ab1 ab2 ab3 ab4 ab5 ab6 ab7 hf3)
      (by simp [e0, e1, e2, e3, e4, e5, e6, e7])
  · exact (by decide : ((2, 1, 3) : ℕ × ℕ × ℕ) ∈ wordwise_table)
  · exact absurd hc (by decide : ¬ classOK true false true false false false)
  · exact absurd hc (by decide : ¬ classOK true false true false false true)
  · exact absurd hc (by decide : ¬ classOK true false true false true false)
  · exact (by decide : ((2, 2, 3) : ℕ × ℕ × ℕ) ∈ wordwise_table)
  · exact absurd hc (by decide : ¬ classOK true false true true false false)
  · exact absurd hc (by decide : ¬ classOK true false true true false true)
  · exact absurd hc (by decide : ¬ classOK true false true true true false)
  · exact (by decide : ((2, 3, 3) : ℕ × ℕ × ℕ) ∈ wordwise_table)
  · exact absurd hc (by decide : ¬ classOK true true false false false false)
  · exact absurd hc (by decide : ¬ classOK true true false false false true)
  · have e0 : bb0 = false := ww_elim_302 ab0 bb0 cb0 hp0
    have e1 : bb1 = false := ww_elim_302 ab1 bb1 cb1 hp1
    have e2 : bb2 = false := ww_elim_302 ab2 bb2 cb2 hp2
    have e3 : bb3 = false := ww_elim_302 ab3 bb3 cb3 hp3
    have e4 : bb4 = false := ww_elim_302 ab4 bb4 cb4 hp4
    have e5 : bb5 = false := ww_elim_302 ab5 bb5 cb5 hp5
    have e6 : bb6 = false := ww_elim_302 ab6 bb6 cb6 hp6
    have e7 : bb7 = false := ww_elim_302 ab7 bb7 cb7 hp7
    exact absurd (ww_fw2 bb0 bb1 bb2 bb3 bb4 bb5 bb6 bb7 hf2)
      (by simp [e0, e1, e2, e3, e4, e5, e6, e7])
  · exact (by decide : ((3, 0, 3) : ℕ × ℕ × ℕ) ∈ wordwise_table)
  · exact absurd hc (by decide : ¬ classOK true true false true false false)
  · exact absurd hc (by decide : ¬ classOK true true false true false true)
  · have e0 : ab0 = false := ww_elim_312 ab0 bb0 cb0 hp0
    have e1 : ab1 = false := ww_elim_312 ab1 bb1 cb1 hp1
    have e2 : ab2 = false := ww_elim_312 ab2 bb2 cb2 hp2
    have e3 : ab3 = false := ww_elim_312 ab3 bb3 cb3 hp3
    have e4 : ab4 = false := ww_elim_312 ab4 bb4 cb4 hp4
    have e5 : ab5 = false := ww_elim_312 ab5 bb5 cb5 hp5
    have e6 : ab6 = false := ww_elim_312 ab6 bb6 cb6 hp6
    have e7 : ab7 = false := ww_elim_312 ab7 bb7 cb7 hp7
    exact absurd (ww_fw3 ab0 ab1 ab2 ab3 ab4 ab5 ab6 ab7 hf3)
      (by simp [e0, e1, e2, e3, e4, e5, e6, e7])
  · exact (by decide : ((3, 1, 3) : ℕ × ℕ × ℕ) ∈ wordwise_table)
  · exact absurd hc (by decide : ¬ classOK true true true false false false)
  · exact absurd hc (by decide : ¬ classOK true true true false false true)
  · exact absurd hc (by decide : ¬ classOK true true true false true false)
  · exact (by decide : ((3, 2, 3) : ℕ × ℕ × ℕ) ∈ wordwise_table)
  · exact absurd hc (by decide : ¬ classOK true true true true false false)
  · exact absurd hc (by decide : ¬ classOK true true true true false true)
  · exact absurd hc (by decide : ¬ classOK true true true true true false)
  · exact (by decide : ((3, 3, 3) : ℕ × ℕ × ℕ) ∈ wordwise_table)
/-- **C4, amended.** `milp_xor_truncated_wordwise` replays a fixed
table of exactly 91 inequalities, each a ternary pattern over a
total vector length of 30 (two input words and one output word, 10
binary variables each); every binary assignment satisfying the
emitted system encodes a row of the 17-row transition table of the
docstring, and every row of that table is realized by some
satisfying assignment. -/
theorem milp_xor_truncated_wordwise_table :
    wordwise_pats.length = 91 ∧
    (∀ p ∈ wordwise_pats, p.length = 30) ∧
    (∀ a b c : TWord, wwSat a b c →
      (wordVal a, wordVal b, wordVal c) ∈ wordwise_table) ∧
    (∀ r ∈ wordwise_table, ∃ a b c : TWord,
      wwSat a b c ∧ (wordVal a, wordVal b, wordVal c) = r) := by
  refine ⟨rfl, by decide, ww_complete, ?_⟩
  intro r hr
  fin_cases hr
  · exact ⟨(TWord.mk false false false false false false false false false false), (TWord.mk false false false false false false false false false false), (TWord.mk false false false false false false false false false false), by decide, rfl⟩
  · exact ⟨(TWord.mk false false false false false false false false false false), (TWord.mk false true false false true false false false false false), (TWord.mk false true false false true false false false false false), by decide, rfl⟩
  · exact ⟨(TWord.mk false false false false false false false false false false), (TWord.mk true false false false false false false false false false), (TWord.mk true false false false false false false false false false), by decide, rfl⟩
  · exact ⟨(TWord.mk false false false false false false false false false false), (TWord.mk true true false false false false false false false false), (TWord.mk true true false false false false false false false false), by decide, rfl⟩
  · exact ⟨(TWord.mk false true false false true false false false false false), (TWord.mk false false false false false false false false false false), (TWord.mk false true false false true false false false false false), by decide, rfl⟩
  · exact ⟨(TWord.mk false true false false true false false false false false), (TWord.mk false true false false true false false false false false), (TWord.mk false false false false false false false false false false), by decide, rfl⟩
  · exact ⟨(TWord.mk false true false false true false false false false false), (TWord.mk false true false true false false false false false false), (TWord.mk false true false true true false false false false false), by decide, rfl⟩
  · exact ⟨(TWord.mk false true false false true false false false false false), (TWord.mk true false false false false false false false false false), (TWord.mk true true false false false false false false false false), by decide, rfl⟩
  · exact ⟨(TWord.mk false true false false true false false false false false), (TWord.mk true true false false false false false false false false), (TWord.mk true true false false false false false false false false), by decide, rfl⟩
  · exact ⟨(TWord.mk true false false false false false false false false false), (TWord.mk false false false false false false false false false false), (TWord.mk true false false false false false false false false false), by decide, rfl⟩
  · exact ⟨(TWord.mk true false false false false false false false false false), (TWord.mk false true false false true false false false false false), (TWord.mk true true false false false false false false false false), by decide, rfl⟩
  · exact ⟨(TWord.mk true false false false false false false false false false), (TWord.mk true false false false false false false false false false), (TWord.mk true true false false false false false false false false), by decide, rfl⟩
  · exact ⟨(TWord.mk true false false false false false false false false false), (TWord.mk true true false false false false false false false false), (TWord.mk true true false false false false false false false false), by decide, rfl⟩
  · exact ⟨(TWord.mk true true false false false false false false false false), (TWord.mk false false false false false false false false false false), (TWord.mk true true false false false false false false false false), by decide, rfl⟩
  · exact ⟨(TWord.mk true true false false false false false false false false), (TWord.mk false true false false true false false false false false), (TWord.mk true true false false false false false false false false), by decide, rfl⟩
  · exact ⟨(TWord.mk true true false false false false false false false false), (TWord.mk true false false false false false false false false false), (TWord.mk true true false false false false false false false false), by decide, rfl⟩
  · exact ⟨(TWord.mk true true false false false false false false false false), (TWord.mk true true false false false false false false false false), (TWord.mk true true false false false false false false false false), by decide, rfl⟩

/-- Witness for `milp_xor_truncated_wordwise_table`: its third
conjunct applied to the all-zero satisfying assignment. -/
theorem milp_xor_truncated_wordwise_table_witness :
    (wordVal (TWord.mk false false false false false false false false false false),
     wordVal (TWord.mk false false false false false false false false false false),
     wordVal (TWord.mk false false false false false false false false false false)) ∈
      wordwise_table :=
  milp_xor_truncated_wordwise_table.2.2.1 _ _ _ (by decide)

/-- **C4, counterexample to the claim as stated.**  The patterns
have length 30, not 31; and the constraint system is not satisfied
by every assignment whose class triple is a table row: the triple
`(1, 1, 0)` is a row, yet its encoding with all bit-level variables
zero violates the system (a word of class 1 must have a nonzero
bit). -/
theorem milp_xor_truncated_wordwise_claim_cex :
    (∃ p ∈ wordwise_pats, p.length ≠ 31) ∧
    (∃ a b c : TWord,
      (wordVal a, wordVal b, wordVal c) ∈ wordwise_table ∧ ¬ wwSat a b c) := by
  constructor
  · exact ⟨"0-00000000-0---------1--------", by decide, by decide⟩
  · exact ⟨TWord.mk false true false false false false false false false false,
      TWord.mk false true false false false false false false false false,
      TWord.mk false false false false false false false false false false,
      by decide, by decide⟩
